import Mathlib

/-!
Verification of the analytics aggregation engine of the housing-satisfaction
dashboard tab (src/dashboard/tabs/tab3_satisfaction_levels.py): the two scorer
lookup tables, the cross-tabulations, the dissatisfaction-reason aggregation,
the group means by district and by rent burden, the district-name
normalization and the geographic join with its score bucketing.

Modelling conventions (pandas semantics made explicit):
* a table is a list of rows; a missing value (pandas NaN) is `none`;
* a dict lookup through `.map` yields NaN for an absent key, i.e. `none`;
* `groupby` drops rows whose key is missing (dropna=True, the default) and
  `mean`/`count` skip missing values of the aggregated column; the mean of a
  group with no defined value is NaN, modelled `none`;
* `pd.crosstab` drops rows in which either of the two columns is missing.
-/

namespace Tab3

/-- One survey row, with exactly the columns the verified aggregations read.
Missing values (pandas NaN) are `none`. -/
structure Row where
  housing_situation : Option String
  satisfaction_level : Option String
  rendimento_anual : Option String
  rent_burden : Option String
  distrito : Option String
deriving DecidableEq

/-- The ordinal scorer table (lines 12-18): `satisfaction_scores` maps the five
labels to 1..5; any other label has no entry, and a `.map` through the dict
yields NaN (`none`) for it. -/
def satisfaction_scores (s : String) : Option Int :=
  if s = "Very Satisfied" then some 5
  else if s = "Satisfied" then some 4
  else if s = "Neutral" then some 3
  else if s = "Dissatisfied" then some 2
  else if s = "Very Dissatisfied" then some 1
  else none

/-- The signed scorer table (lines 328-334): `satisfaction_weights` maps the
five labels to -2..+2; any other label has no entry. -/
def satisfaction_weights (s : String) : Option Int :=
  if s = "Very Satisfied" then some 2
  else if s = "Satisfied" then some 1
  else if s = "Neutral" then some 0
  else if s = "Dissatisfied" then some (-1)
  else if s = "Very Dissatisfied" then some (-2)
  else none

/-- The derived column `satisfaction_score` (lines 228-230, 293-295):
`df["satisfaction_level"].map(satisfaction_scores)`; a missing label or a
label outside the table gives NaN. -/
def satisfaction_score (r : Row) : Option Int :=
  r.satisfaction_level.bind satisfaction_scores

/-- The derived column `satisfaction_numeric` (lines 337-339):
`df["satisfaction_level"].map(satisfaction_weights)`. -/
def satisfaction_numeric (r : Row) : Option Int :=
  r.satisfaction_level.bind satisfaction_weights

/-- The distinct non-missing keys of a groupby column. pandas `groupby` drops
missing keys (dropna=True) and sorts the keys; key order is irrelevant to the
verified claims, so first-occurrence order is kept. -/
def groupKeys (key : Row → Option String) (df : List Row) : List String :=
  (df.filterMap key).dedup

/-- The rows of one groupby group. -/
def groupRows (key : Row → Option String) (df : List Row) (k : String) : List Row :=
  df.filter (fun r => key r == some k)

/-- pandas `mean` over one group: missing values of the aggregated column are
skipped; the mean over zero defined values is NaN (`none`), never 0. -/
def groupMeanOf (v : Row → Option Int) (rows : List Row) : Option ℚ :=
  let vals := rows.filterMap v
  if vals.length = 0 then none
  else some ((vals.map (fun z => (z : ℚ))).sum / (vals.length : ℚ))

/-- pandas `count` over one group: the number of defined values. -/
def groupCountOf (v : Row → Option Int) (rows : List Row) : Nat :=
  (rows.filterMap v).length

/-- `district_satisfaction` (lines 342-346):
`filtered_df.groupby("distrito")["satisfaction_numeric"].agg(["mean", "count"])`,
one `(district, mean, count)` entry per district present. -/
def district_satisfaction (df : List Row) : List (String × Option ℚ × Nat) :=
  (groupKeys (fun r => r.distrito) df).map (fun k =>
    (k, groupMeanOf satisfaction_numeric (groupRows (fun r => r.distrito) df k),
        groupCountOf satisfaction_numeric (groupRows (fun r => r.distrito) df k)))

/-- `renters_df` (line 251): `filtered_df[filtered_df["housing_situation"] == "Renting"]`;
a missing housing situation compares unequal, hence is excluded. -/
def renters_df (df : List Row) : List Row :=
  df.filter (fun r => r.housing_situation == some "Renting")

/-- `avg_satisfaction_by_burden` (lines 296-298):
`renters_df.groupby("rent_burden")["satisfaction_score"].mean()`. -/
def avg_satisfaction_by_burden (df : List Row) : List (String × Option ℚ) :=
  (groupKeys (fun r => r.rent_burden) (renters_df df)).map (fun k =>
    (k, groupMeanOf satisfaction_score (groupRows (fun r => r.rent_burden) (renters_df df) k)))

lemma length_filterMap_eq_countP (v : Row → Option Int) (l : List Row) :
    (l.filterMap v).length = l.countP (fun r => (v r).isSome) := by
  induction l with
  | nil => rfl
  | cons a l ih =>
    rw [List.filterMap_cons, List.countP_cons]
    cases h : v a <;> simp [h, ih]

lemma groupCountOf_eq (key : Row → Option String) (v : Row → Option Int)
    (df : List Row) (k : String) :
    groupCountOf v (groupRows key df k) =
      (df.filter (fun r => key r == some k && (v r).isSome)).length := by
  rw [groupCountOf, groupRows, length_filterMap_eq_countP, List.countP_filter,
    ← List.countP_eq_length_filter]
  congr 1
  funext r
  rw [Bool.and_comm]

lemma groupMeanOf_eq_none_iff (v : Row → Option Int) (rows : List Row) :
    groupMeanOf v rows = none ↔ (rows.filterMap v).length = 0 := by
  rw [groupMeanOf]
  split <;> simp_all

/-- C9: the two scorer lookup tables are defined on exactly the same five
labels and are related by the fixed affine map weight = score - 3 (hence they
induce the same ordering of labels); any label outside the five gets no value
in both tables. -/
theorem scorer_tables_affine (s : String) :
    satisfaction_weights s = (satisfaction_scores s).map (fun n => n - 3)
    ∧ ((satisfaction_weights s).isSome ↔ (satisfaction_scores s).isSome) := by
  unfold satisfaction_weights satisfaction_scores
  constructor
  · split_ifs <;> rfl
  · split_ifs <;> simp

/-- C1: in every district group of `district_satisfaction`, the reported count
equals the number of rows of the group whose signed score is defined (rows the
scorer gave no value contribute to neither mean nor count), and a count of 0
forces an absent mean (`none`), never a zero default; likewise the renter
mean by rent burden is absent exactly when the group has no defined ordinal
score. -/
theorem group_aggregator_defined_only (df : List Row) :
    (∀ k m c, (k, m, c) ∈ district_satisfaction df →
      c = (df.filter (fun r => r.distrito == some k
            && (satisfaction_numeric r).isSome)).length
      ∧ (c = 0 → m = none))
    ∧ (∀ k m, (k, m) ∈ avg_satisfaction_by_burden df →
      (m = none ↔
        ((renters_df df).filter (fun r => r.rent_burden == some k
            && (satisfaction_score r).isSome)).length = 0)) := by
  constructor
  · intro k m c h
    rw [district_satisfaction, List.mem_map] at h
    obtain ⟨k0, hk0, heq⟩ := h
    rw [Prod.mk.injEq, Prod.mk.injEq] at heq
    obtain ⟨h1, h2, h3⟩ := heq
    subst h1; subst h2; subst h3
    refine ⟨groupCountOf_eq _ _ df k0, fun hc => ?_⟩
    rw [groupCountOf] at hc
    exact (groupMeanOf_eq_none_iff _ _).mpr hc
  · intro k m h
    rw [avg_satisfaction_by_burden, List.mem_map] at h
    obtain ⟨k0, hk0, heq⟩ := h
    rw [Prod.mk.injEq] at heq
    obtain ⟨h1, h2⟩ := heq
    subst h1; subst h2
    rw [groupMeanOf_eq_none_iff]
    have hce := groupCountOf_eq (fun r => r.rent_burden) satisfaction_score (renters_df df) k0
    rw [groupCountOf] at hce
    rw [hce]

/-- Witness for C1 at a concrete one-row table whose satisfaction label is
outside the scorer tables: the district group has count 0 and an absent mean,
and the renter burden group has an absent mean. -/
theorem group_aggregator_defined_only_witness :
    ((0 : Nat) =
      (List.filter (fun r => r.distrito == some "x" && (satisfaction_numeric r).isSome)
        [(⟨some "Renting", some "weird", none, some "b", some "x"⟩ : Row)]).length
      ∧ ((0 : Nat) = 0 → (none : Option ℚ) = none))
    ∧ ((none : Option ℚ) = none ↔
      (List.filter (fun r => r.rent_burden == some "b" && (satisfaction_score r).isSome)
        (renters_df [(⟨some "Renting", some "weird", none, some "b", some "x"⟩ : Row)])).length = 0) :=
  ⟨(group_aggregator_defined_only
      [⟨some "Renting", some "weird", none, some "b", some "x"⟩]).1
      "x" none 0 (by decide),
   (group_aggregator_defined_only
      [⟨some "Renting", some "weird", none, some "b", some "x"⟩]).2
      "b" none (by decide)⟩

/-- The five display buckets of the map, as the spec words them: very-low
below -1.5, low in [-1.5,-0.5), neutral in [-0.5,0.5), high in [0.5,1.5),
very-high at or above 1.5. This is the spec-side definition used to compare
the two source-side threshold chains. -/
inductive Bucket
  | veryLow
  | low
  | neutral
  | high
  | veryHigh
deriving DecidableEq

/-- Spec-side bucketing with right-open intervals (boundary score goes to the
higher bucket). -/
def spec_bucket (score : ℚ) : Bucket :=
  if score < -(3/2) then .veryLow
  else if score < -(1/2) then .low
  else if score < 1/2 then .neutral
  else if score < 3/2 then .high
  else .veryHigh

/-- The popup description of each bucket, from create_popup_html. -/
def bucket_desc : Bucket → String
  | .veryLow => "Very Low Satisfaction"
  | .low => "Low Satisfaction"
  | .neutral => "Neutral Satisfaction"
  | .high => "High Satisfaction"
  | .veryHigh => "Very High Satisfaction"

/-- The color token of each bucket, shared by popup and legend. -/
def bucket_color : Bucket → String
  | .veryLow => "#d73027"
  | .low => "#fc8d59"
  | .neutral => "#fee08b"
  | .high => "#91cf60"
  | .veryHigh => "#1a9850"

/-- The description/color selection branch of `create_popup_html`
(lines 407-421), a pure function of the score: descending chain of `>=`
comparisons against 1.5, 0.5, -0.5, -1.5. -/
def popup_desc_color (score : ℚ) : String × String :=
  if score ≥ 3/2 then ("Very High Satisfaction", "#1a9850")
  else if score ≥ 1/2 then ("High Satisfaction", "#91cf60")
  else if score ≥ -(1/2) then ("Neutral Satisfaction", "#fee08b")
  else if score ≥ -(3/2) then ("Low Satisfaction", "#fc8d59")
  else ("Very Low Satisfaction", "#d73027")

/-- The fill-color selection branch of `style_function` (lines 522-533), a
pure function of the score: ascending chain of `<` comparisons against
-1.5, -0.5, 0.5, 1.5. -/
def style_fill_color (score : ℚ) : String :=
  if score < -(3/2) then "#d73027"
  else if score < -(1/2) then "#fc8d59"
  else if score < 1/2 then "#fee08b"
  else if score < 3/2 then "#91cf60"
  else "#1a9850"

/-- C2: for every real score the popup's description/color pair and the map
fill color denote the same of the five buckets, both given by the right-open
spec bucketing; in particular each threshold boundary score (-1.5, -0.5, 0.5,
1.5) falls in the higher bucket under both functions. -/
theorem popup_style_bucketing_agree (s : ℚ) :
    popup_desc_color s = (bucket_desc (spec_bucket s), bucket_color (spec_bucket s))
    ∧ style_fill_color s = bucket_color (spec_bucket s)
    ∧ spec_bucket (-(3/2)) = .low ∧ spec_bucket (-(1/2)) = .neutral
    ∧ spec_bucket (1/2) = .high ∧ spec_bucket (3/2) = .veryHigh := by
  refine ⟨?_, ?_, by norm_num [spec_bucket], by norm_num [spec_bucket],
    by norm_num [spec_bucket], by norm_num [spec_bucket]⟩
  · unfold popup_desc_color spec_bucket
    split_ifs <;> first | rfl | (exfalso; linarith)
  · unfold style_fill_color spec_bucket
    split_ifs <;> rfl

/-- The (dimension value, satisfaction label) pairs `pd.crosstab` actually
tabulates: rows in which either column is missing are dropped (dropna
behaviour of crosstab). -/
def crosstabPairs (rows : List (Option String × Option String)) : List (String × String) :=
  rows.filterMap (fun p => p.1.bind (fun a => p.2.map (fun b => (a, b))))

/-- `pd.crosstab` as a list of ((dimension value, label), count) entries, one
per distinct complete pair present in the data. pandas sorts the axis labels;
the verified claims are order-independent on the keys, so first-occurrence
order is kept. -/
def crosstab (rows : List (Option String × Option String)) : List ((String × String) × Nat) :=
  (crosstabPairs rows).dedup.map
    (fun k => (k, @List.count _ instBEqOfDecidableEq k (crosstabPairs rows)))

/-- The distinct column labels of a crosstab (`pivot.columns`). -/
def crosstabCols (rows : List (Option String × Option String)) : List String :=
  ((crosstabPairs rows).map Prod.snd).dedup

/-- The distinct row keys of a crosstab (its index): grouping values with zero
tabulated rows simply do not appear. -/
def crosstabRowKeys (rows : List (Option String × Option String)) : List String :=
  ((crosstabPairs rows).map Prod.fst).dedup

/-- `satisfaction_pivot` (lines 44-46):
`pd.crosstab(df["housing_situation"], df["satisfaction_level"])`. -/
def satisfaction_pivot (df : List Row) : List ((String × String) × Nat) :=
  crosstab (df.map (fun r => (r.housing_situation, r.satisfaction_level)))

/-- `rent_satisfaction` (lines 253-255):
`pd.crosstab(renters_df["rent_burden"], renters_df["satisfaction_level"])`. -/
def rent_satisfaction (df : List Row) : List ((String × String) × Nat) :=
  crosstab ((renters_df df).map (fun r => (r.rent_burden, r.satisfaction_level)))

/-- The fixed ordered label list of lines 49-55. -/
def ordered_cols_full : List String :=
  ["Very Satisfied", "Satisfied", "Neutral", "Dissatisfied", "Very Dissatisfied"]

/-- `ordered_cols` (lines 56-58): the caller's ordered list filtered to the
columns present in the pivot; line 59 then reindexes the pivot to exactly
these columns in this order. The source instantiates `allowed` with
`ordered_cols_full`. -/
def ordered_cols (allowed : List String) (rows : List (Option String × Option String)) :
    List String :=
  allowed.filter (fun c => (crosstabCols rows).contains c)

lemma mem_crosstabPairs (rows : List (Option String × Option String)) (a b : String) :
    (a, b) ∈ crosstabPairs rows ↔ (some a, some b) ∈ rows := by
  unfold crosstabPairs
  rw [List.mem_filterMap]
  constructor
  · rintro ⟨⟨x, y⟩, hmem, hxy⟩
    cases x with
    | none => simp at hxy
    | some a0 =>
      cases y with
      | none => simp at hxy
      | some b0 =>
        simp only [Option.bind_eq_bind, Option.some_bind, Option.map_some',
          Option.some.injEq, Prod.mk.injEq] at hxy
        obtain ⟨rfl, rfl⟩ := hxy
        exact hmem
  · intro h
    exact ⟨(some a, some b), h, rfl⟩

lemma mem_crosstabCols (rows : List (Option String × Option String)) (c : String) :
    c ∈ crosstabCols rows ↔ ∃ a, (some a, some c) ∈ rows := by
  unfold crosstabCols
  rw [List.mem_dedup, List.mem_map]
  constructor
  · rintro ⟨⟨a, b⟩, hmem, rfl⟩
    exact ⟨a, (mem_crosstabPairs rows a b).mp hmem⟩
  · rintro ⟨a, h⟩
    exact ⟨(a, c), (mem_crosstabPairs rows a c).mpr h, rfl⟩

lemma mem_crosstabRowKeys (rows : List (Option String × Option String)) (g : String) :
    g ∈ crosstabRowKeys rows ↔ ∃ b, (some g, some b) ∈ rows := by
  unfold crosstabRowKeys
  rw [List.mem_dedup, List.mem_map]
  constructor
  · rintro ⟨⟨a, b⟩, hmem, rfl⟩
    exact ⟨b, (mem_crosstabPairs rows a b).mp hmem⟩
  · rintro ⟨b, h⟩
    exact ⟨(g, b), (mem_crosstabPairs rows g b).mpr h, rfl⟩

lemma length_crosstabPairs (rows : List (Option String × Option String)) :
    (crosstabPairs rows).length =
      (rows.filter (fun p => p.1.isSome && p.2.isSome)).length := by
  induction rows with
  | nil => rfl
  | cons p rows ih =>
    rw [crosstabPairs, List.filterMap_cons, List.filter_cons]
    cases h1 : p.1 with
    | none => simpa [h1] using ih
    | some a =>
      cases h2 : p.2 with
      | none => simpa [h1, h2] using ih
      | some b =>
        simp only [h1, h2, Option.some_bind, Option.map_some', Option.isSome_some,
          Bool.and_self, if_true, List.length_cons]
        rw [← crosstabPairs, ih]

/-- The sum of all counts of a crosstab is the number of tabulated pairs. -/
lemma crosstab_sum_counts (rows : List (Option String × Option String)) :
    ((crosstab rows).map (fun e => e.2)).sum =
      (rows.filter (fun p => p.1.isSome && p.2.isSome)).length := by
  rw [crosstab, List.map_map, ← length_crosstabPairs,
    ← List.sum_map_count_dedup_eq_length (crosstabPairs rows)]
  simp [Function.comp_def]

/-- C4: for every input row set, the counts of the housing-situation and of
the rent-burden crosstabs sum to the number of rows in which both the
grouping dimension and the satisfaction label are non-missing. -/
theorem crosstab_counts_sum (df : List Row) :
    ((satisfaction_pivot df).map (fun e => e.2)).sum =
      (df.filter (fun r => r.housing_situation.isSome && r.satisfaction_level.isSome)).length
    ∧ ((rent_satisfaction df).map (fun e => e.2)).sum =
      ((renters_df df).filter
        (fun r => r.rent_burden.isSome && r.satisfaction_level.isSome)).length := by
  constructor
  · rw [satisfaction_pivot, crosstab_sum_counts, List.filter_map, List.length_map]
    rfl
  · rw [rent_satisfaction, crosstab_sum_counts, List.filter_map, List.length_map]
    rfl

/-- C7: the reindexed pivot's columns are exactly the labels of the
caller-supplied ordered list that occur in the data (with a non-missing
grouping value), kept in the caller's order (a sublist of it, labels outside
the list dropped); grouping values with zero tabulated rows are omitted from
the index; and on empty input crosstab, columns and index are all empty
rather than an error. -/
theorem cross_tabulator_restriction (allowed : List String)
    (rows : List (Option String × Option String)) :
    (ordered_cols allowed rows).Sublist allowed
    ∧ (∀ c, c ∈ ordered_cols allowed rows ↔ c ∈ allowed ∧ ∃ a, (some a, some c) ∈ rows)
    ∧ (∀ g, g ∈ crosstabRowKeys rows ↔ ∃ b, (some g, some b) ∈ rows)
    ∧ crosstab [] = [] ∧ ordered_cols allowed [] = []
    ∧ crosstabRowKeys ([] : List (Option String × Option String)) = [] := by
  refine ⟨List.filter_sublist allowed, fun c => ?_, mem_crosstabRowKeys rows, rfl, ?_, rfl⟩
  · rw [ordered_cols, List.mem_filter]
    constructor
    · rintro ⟨h1, h2⟩
      refine ⟨h1, (mem_crosstabCols rows c).mp ?_⟩
      simpa [List.contains, List.elem_iff] using h2
    · rintro ⟨h1, h2⟩
      refine ⟨h1, ?_⟩
      simpa [List.contains, List.elem_iff] using (mem_crosstabCols rows c).mpr h2
  · simp [ordered_cols, crosstabCols, crosstabPairs]

/-- The fixed reason dictionary `reason_mapping` (lines 144-155), in its
declaration order. -/
def reason_mapping : List (String × String) :=
  [("reason_pago-demasiado", "Paying too much"),
   ("reason_falta-espaco", "Lack of space"),
   ("reason_habitacao-mau-estado", "Poor housing condition"),
   ("reason_vivo-longe", "Living far from work/amenities"),
   ("reason_quero-independecia", "Want independence"),
   ("reason_dificuldades-financeiras", "Financial difficulties"),
   ("reason_financeiramente-dependente", "Financially dependent"),
   ("reason_vivo-longe-de-transportes", "Far from transportation"),
   ("reason_vivo-zona-insegura", "Living in unsafe area"),
   ("reason_partilho-casa-com-desconhecidos", "Sharing with strangers")]

/-- `dissatisfaction_cols` (line 143): the input table's columns whose name
starts with "reason_", in table column order (startswith, expressed on the
character lists of the strings). -/
def dissatisfaction_cols (cols : List String) : List String :=
  cols.filter (fun c => "reason_".data.isPrefixOf c.data)

/-- `reason_counts` (lines 158-161): a Python dict built by iterating the
table's reason columns in table-column order, keeping those present in
`reason_mapping`, each mapped to its column sum `df[col].sum()`. Python dict
insertion order is therefore table-column order (column names are distinct in
the table, as in pandas). -/
def reason_counts (cols : List String) (colSum : String → Int) : List (String × Int) :=
  (dissatisfaction_cols cols).filterMap
    (fun c => (reason_mapping.lookup c).map (fun lbl => (lbl, colSum c)))

/-- Insertion step of a stable descending sort: walk past every strictly
greater element and stop at the first element not greater, so equal keys keep
their original relative order. -/
def insertDesc (p : String × Int) : List (String × Int) → List (String × Int)
  | [] => [p]
  | q :: qs => if p.2 < q.2 then q :: insertDesc p qs else p :: q :: qs

/-- `DataFrame.sort_values("Count", ascending=False)` on the reason table.
pandas argsorts the reversed values ascending and reverses the resulting
indexer, so with a stable underlying sort ties keep their original order; the
underlying numpy introsort is stable here because the array has at most the
10 dictionary entries, below numpy's 16-element insertion-sort cutoff.
Modelled as a stable descending insertion sort. -/
def sort_values_desc : List (String × Int) → List (String × Int)
  | [] => []
  | p :: ps => insertDesc p (sort_values_desc ps)

/-- `reason_df` (lines 163-165): the (Reason, Count) table sorted descending
by Count. -/
def reason_df (cols : List String) (colSum : String → Int) : List (String × Int) :=
  sort_values_desc (reason_counts cols colSum)

lemma mem_insertDesc (p x : String × Int) (l : List (String × Int)) :
    x ∈ insertDesc p l ↔ x = p ∨ x ∈ l := by
  induction l with
  | nil => simp [insertDesc]
  | cons q qs ih =>
    rw [insertDesc]
    split_ifs with h
    · rw [List.mem_cons, ih, List.mem_cons]
      tauto
    · simp [List.mem_cons]

lemma pairwise_insertDesc (p : String × Int) (l : List (String × Int))
    (h : List.Pairwise (fun a b => b.2 ≤ a.2) l) :
    List.Pairwise (fun a b => b.2 ≤ a.2) (insertDesc p l) := by
  induction l with
  | nil => simp [insertDesc]
  | cons q qs ih =>
    rw [List.pairwise_cons] at h
    obtain ⟨hq, hqs⟩ := h
    rw [insertDesc]
    split_ifs with hlt
    · rw [List.pairwise_cons]
      refine ⟨fun x hx => ?_, ih hqs⟩
      rw [mem_insertDesc] at hx
      rcases hx with rfl | hx
      · exact le_of_lt hlt
      · exact hq x hx
    · rw [List.pairwise_cons]
      refine ⟨fun x hx => ?_, List.pairwise_cons.mpr ⟨hq, hqs⟩⟩
      rcases List.mem_cons.mp hx with rfl | hx
      · exact le_of_not_lt hlt
      · exact le_trans (hq x hx) (le_of_not_lt hlt)

lemma sorted_sort_values_desc (l : List (String × Int)) :
    List.Pairwise (fun a b => b.2 ≤ a.2) (sort_values_desc l) := by
  induction l with
  | nil => exact List.Pairwise.nil
  | cons p ps ih => exact pairwise_insertDesc p _ ih

lemma filter_insertDesc (p : String × Int) (l : List (String × Int)) (c : Int) :
    (insertDesc p l).filter (fun q => q.2 == c) =
      if p.2 = c then p :: l.filter (fun q => q.2 == c)
      else l.filter (fun q => q.2 == c) := by
  induction l with
  | nil => by_cases h : p.2 = c <;> simp [insertDesc, h]
  | cons q qs ih =>
    rw [insertDesc]
    split_ifs with hlt hpc hpc2
    · have hqc : ¬ q.2 = c := by omega
      simp [List.filter_cons, hqc, hpc, ih]
    · by_cases hqc : q.2 = c <;> simp [List.filter_cons, hqc, hpc, ih]
    · simp [List.filter_cons, hpc2]
    · simp [List.filter_cons, hpc2]

lemma filter_sort_values_desc (l : List (String × Int)) (c : Int) :
    (sort_values_desc l).filter (fun q => q.2 == c) = l.filter (fun q => q.2 == c) := by
  induction l with
  | nil => rfl
  | cons p ps ih =>
    rw [sort_values_desc, filter_insertDesc, List.filter_cons]
    by_cases h : p.2 = c <;> simp [h, ih]

lemma reason_df_concrete :
    reason_df ["reason_falta-espaco", "reason_pago-demasiado"] (fun _ => 1) =
      [("Lack of space", 1), ("Paying too much", 1)] := by
  decide

/-- C3 (amended): `reason_df` is sorted descending by count, and entries with
equal counts keep the relative order in which their indicator columns appear
in the INPUT TABLE's column list (pandas' descending sort is stable at this
size), which coincides with the reason dictionary's declaration order only
when the table's columns happen to be declared in that order; the output is a
pure function of the input, hence identical across repeated runs. -/
theorem reason_aggregator_sorted_stable (cols : List String) (colSum : String → Int) :
    List.Pairwise (fun a b => b.2 ≤ a.2) (reason_df cols colSum)
    ∧ (∀ c : Int, (reason_df cols colSum).filter (fun q => q.2 == c) =
        (reason_counts cols colSum).filter (fun q => q.2 == c)) :=
  ⟨sorted_sort_values_desc _, fun c => filter_sort_values_desc _ c⟩

/-- C3 counterexample: with the two indicator columns appearing in the input
table in the order ["reason_falta-espaco", "reason_pago-demasiado"] (realised
by, e.g., one row with both indicators 1) and therefore equal counts, the
tied entries come out in table-column order (Lack of space first), not in the
reason dictionary's declaration order, which declares reason_pago-demasiado
(Paying too much) first. -/
theorem reason_aggregator_tie_order_counterexample :
    reason_df ["reason_falta-espaco", "reason_pago-demasiado"] (fun _ => 1) =
      [("Lack of space", 1), ("Paying too much", 1)]
    ∧ reason_df ["reason_falta-espaco", "reason_pago-demasiado"] (fun _ => 1) ≠
      [("Paying too much", 1), ("Lack of space", 1)]
    ∧ reason_mapping.lookup "reason_pago-demasiado" = some "Paying too much"
    ∧ reason_mapping.lookup "reason_falta-espaco" = some "Lack of space" := by
  refine ⟨reason_df_concrete, ?_, by decide, by decide⟩
  rw [reason_df_concrete]
  decide

/-- The multiselect options (line 200): `df["satisfaction_level"].unique()`,
the distinct values of the column in first-occurrence order, a missing value
included if present (pandas unique keeps NaN). -/
def uniqueLevels (df : List Row) : List (Option String) :=
  (df.map (fun r => r.satisfaction_level)).dedup

/-- `filtered_df` (lines 204-207): for a truthy (non-empty) selection, the
rows whose satisfaction_level is in the selection (pandas `isin` also matches
a missing value against a missing value in the list); for the empty
selection, the whole table. -/
def filtered_df (df : List Row) (sel : List (Option String)) : List Row :=
  if sel = [] then df
  else df.filter (fun r => sel.contains r.satisfaction_level)

/-- C10: the empty selection leaves the table whole: `filtered_df` with the
empty selection is the input table itself and coincides with filtering by all
distinct satisfaction levels of the table, so every downstream aggregate
(here instantiated with the district summary and the two crosstabs, all pure
functions of the filtered table) is computed over the entire table; if some
row has a district, the district summary under the empty selection is
non-empty. -/
theorem empty_selection_selects_all (df : List Row) :
    filtered_df df [] = df
    ∧ filtered_df df (uniqueLevels df) = df
    ∧ district_satisfaction (filtered_df df []) =
        district_satisfaction (filtered_df df (uniqueLevels df))
    ∧ satisfaction_pivot (filtered_df df []) =
        satisfaction_pivot (filtered_df df (uniqueLevels df))
    ∧ rent_satisfaction (filtered_df df []) =
        rent_satisfaction (filtered_df df (uniqueLevels df))
    ∧ ((∃ r ∈ df, r.distrito.isSome) → district_satisfaction (filtered_df df []) ≠ []) := by
  have h1 : filtered_df df [] = df := by simp [filtered_df]
  have h2 : filtered_df df (uniqueLevels df) = df := by
    rw [filtered_df]
    split_ifs with hs
    · rfl
    · apply List.filter_eq_self.mpr
      intro r hr
      have hm : r.satisfaction_level ∈ uniqueLevels df := by
        rw [uniqueLevels, List.mem_dedup]
        exact List.mem_map_of_mem _ hr
      simpa [List.contains, List.elem_iff] using hm
  refine ⟨h1, h2, by rw [h1, h2], by rw [h1, h2], by rw [h1, h2], ?_⟩
  rintro ⟨r, hr, hd⟩
  rw [h1, district_satisfaction]
  intro hemp
  rw [List.map_eq_nil_iff, groupKeys, List.dedup_eq_nil] at hemp
  obtain ⟨d, hd2⟩ := Option.isSome_iff_exists.mp hd
  have : d ∈ df.filterMap (fun r => r.distrito) :=
    List.mem_filterMap.mpr ⟨r, hr, hd2⟩
  rw [hemp] at this
  exact absurd this (List.not_mem_nil d)

/-- Witness for C10's non-emptiness clause at a concrete one-row table with a
district. -/
theorem empty_selection_selects_all_witness :
    district_satisfaction
      (filtered_df [(⟨none, none, none, none, some "lisboa"⟩ : Row)] []) ≠ [] :=
  (empty_selection_selects_all [⟨none, none, none, none, some "lisboa"⟩]).2.2.2.2.2
    (by decide)

/-- One pandas frame object, for the frame-effect analysis of the tab body:
its row values plus the names of the score columns assigned to the object
beyond the input schema. Boolean-mask indexing (`df[mask]`, lines 205, 251)
returns a fresh copy, so assignments to the copy never touch the caller's
object; the plain binding `filtered_df = df` (line 207) aliases the caller's
object. -/
structure Frame where
  rows : List Row
  extra : List String
deriving DecidableEq

/-- The net effect of one tab render on the CALLER's table object. With a
non-empty selection, `filtered_df` is a fresh copy (line 205) and the column
assignments of the pipeline (line 228 `filtered_df["satisfaction_score"] = ...`,
line 337 `filtered_df.loc[:, "satisfaction_numeric"] = ...`, line 293 on the
copy `renters_df`, lines 450/483 on the derived frame `district_satisfaction`)
all land on derived objects, leaving the caller's object untouched. With the
EMPTY selection, line 207 binds `filtered_df` to the caller's object itself,
so the two score-column assignments of lines 228 and 337 mutate the caller's
table in place. -/
def caller_frame_after (df : Frame) (sel : List (Option String)) : Frame :=
  if sel = [] then
    { df with extra := df.extra ++ ["satisfaction_score", "satisfaction_numeric"] }
  else df

/-- C5 (the code violates the claim): the caller's table is unchanged for
every non-empty selection, but at the failing input — the empty selection,
any table — the caller's object gains the two score columns, so the
aggregation pipeline does mutate the caller's table. -/
theorem pipeline_mutates_caller_on_empty_selection :
    (∀ (df : Frame) (sel : List (Option String)), sel ≠ [] → caller_frame_after df sel = df)
    ∧ caller_frame_after ⟨[], []⟩ [] ≠ (⟨[], []⟩ : Frame)
    ∧ caller_frame_after ⟨[], []⟩ [] =
        (⟨[], ["satisfaction_score", "satisfaction_numeric"]⟩ : Frame) :=
  ⟨fun df sel h => by simp [caller_frame_after, h], by decide, by decide⟩

/-- Witness for C5's non-empty-selection clause at a concrete selection. -/
theorem pipeline_mutates_caller_on_empty_selection_witness :
    caller_frame_after ⟨[], []⟩ [some "Neutral"] = (⟨[], []⟩ : Frame) :=
  pipeline_mutates_caller_on_empty_selection.1 ⟨[], []⟩ [some "Neutral"] (by decide)

/-- The character repertoire over which the district-name normalization
(lines 450-456) is modelled: the printable ASCII characters (as their code
point in `Fin 128`), the accented Latin letters occurring in Portuguese
district names in lowercase and uppercase, and the combining marks their NFKD
decompositions produce (U+0301 acute, U+0300 grave, U+0302 circumflex,
U+0303 tilde, U+0327 cedilla). The three per-character operations below are
modelled from the behaviour of Python str.lower, unicodedata NFKD and
ascii-ignore encoding on this repertoire. -/
inductive UChar
  | asc (c : Fin 128)
  | aacute | agrave | acirc | atilde | ccedil | eacute | ecirc | iacute
  | oacute | ocirc | otilde | uacute
  | upAacute | upAgrave | upAcirc | upAtilde | upCcedil | upEacute | upEcirc
  | upIacute | upOacute | upOcirc | upOtilde | upUacute
  | combAcute | combGrave | combCirc | combTilde | combCedil
deriving DecidableEq

/-- Python str.lower on one character of the repertoire: ASCII A-Z (codes
65-90) map to a-z (codes 97-122), accented uppercase maps to its accented
lowercase, everything else is unchanged. -/
def lowerChar : UChar → UChar
  | .asc c => if 65 ≤ (c : Nat) ∧ (c : Nat) ≤ 90 then .asc (c + 32) else .asc c
  | .upAacute => .aacute
  | .upAgrave => .agrave
  | .upAcirc => .acirc
  | .upAtilde => .atilde
  | .upCcedil => .ccedil
  | .upEacute => .eacute
  | .upEcirc => .ecirc
  | .upIacute => .iacute
  | .upOacute => .oacute
  | .upOcirc => .ocirc
  | .upOtilde => .otilde
  | .upUacute => .uacute
  | x => x

/-- unicodedata NFKD on one character of the repertoire: an accented letter
decomposes into its base letter followed by the combining mark; ASCII
characters and combining marks are NFKD-invariant. -/
def nfkdChar : UChar → List UChar
  | .aacute => [.asc 97, .combAcute]
  | .agrave => [.asc 97, .combGrave]
  | .acirc => [.asc 97, .combCirc]
  | .atilde => [.asc 97, .combTilde]
  | .ccedil => [.asc 99, .combCedil]
  | .eacute => [.asc 101, .combAcute]
  | .ecirc => [.asc 101, .combCirc]
  | .iacute => [.asc 105, .combAcute]
  | .oacute => [.asc 111, .combAcute]
  | .ocirc => [.asc 111, .combCirc]
  | .otilde => [.asc 111, .combTilde]
  | .uacute => [.asc 117, .combAcute]
  | .upAacute => [.asc 65, .combAcute]
  | .upAgrave => [.asc 65, .combGrave]
  | .upAcirc => [.asc 65, .combCirc]
  | .upAtilde => [.asc 65, .combTilde]
  | .upCcedil => [.asc 67, .combCedil]
  | .upEacute => [.asc 69, .combAcute]
  | .upEcirc => [.asc 69, .combCirc]
  | .upIacute => [.asc 73, .combAcute]
  | .upOacute => [.asc 79, .combAcute]
  | .upOcirc => [.asc 79, .combCirc]
  | .upOtilde => [.asc 79, .combTilde]
  | .upUacute => [.asc 85, .combAcute]
  | x => [x]

/-- encode("ascii", errors="ignore"): keep exactly the ASCII characters. -/
def isAsciiChar : UChar → Bool
  | .asc _ => true
  | _ => false

/-- `distrito_normalized` (lines 450-456): lowercase, NFKD-decompose, then
drop every non-ASCII character (the combining marks and any accented letter
that did not decompose). A district name is its character list. -/
def distrito_normalized (s : List UChar) : List UChar :=
  ((s.map lowerChar).flatMap nfkdChar).filter isAsciiChar

set_option maxRecDepth 4096 in
lemma normal_after_lower_nfkd :
    ∀ x : UChar, ∀ c ∈ nfkdChar (lowerChar x),
      isAsciiChar c = true → lowerChar c = c ∧ nfkdChar c = [c] := by
  intro x
  cases x
  case asc c0 =>
    revert c0
    decide
  all_goals decide

lemma distrito_normalized_fixed (l : List UChar)
    (h : ∀ c ∈ l, lowerChar c = c ∧ nfkdChar c = [c] ∧ isAsciiChar c = true) :
    distrito_normalized l = l := by
  induction l with
  | nil => rfl
  | cons c l ih =>
    obtain ⟨h1, h2, h3⟩ := h c (List.mem_cons_self c l)
    have hrest := fun d hd => h d (List.mem_cons_of_mem c hd)
    rw [distrito_normalized, List.map_cons, h1, List.flatMap_cons, h2,
      List.singleton_append, List.filter_cons, h3]
    simp only [if_true]
    rw [← distrito_normalized, ih hrest]

/-- C6: the district-name normalization is idempotent — normalizing an
already-normalized name changes nothing, for every string over the modelled
repertoire. -/
theorem distrito_normalized_idempotent (s : List UChar) :
    distrito_normalized (distrito_normalized s) = distrito_normalized s := by
  apply distrito_normalized_fixed
  intro c hc
  rw [distrito_normalized, List.mem_filter] at hc
  obtain ⟨hmem, hascii⟩ := hc
  rw [List.mem_flatMap] at hmem
  obtain ⟨y, hy, hcy⟩ := hmem
  rw [List.mem_map] at hy
  obtain ⟨x, _, rfl⟩ := hy
  obtain ⟨hl, hn⟩ := normal_after_lower_nfkd x c hcy hascii
  exact ⟨hl, hn, hascii⟩

/-- The static alias dictionary `district_mapping` (lines 459-480):
normalized district name → canonical boundary-feature key. -/
def district_mapping : List (String × String) :=
  [("viana do castelo", "viana do castelo"),
   ("braga", "braga"),
   ("vila real", "vila real"),
   ("braganca", "braganca"),
   ("aveiro", "aveiro"),
   ("coimbra", "coimbra"),
   ("leiria", "leiria"),
   ("lisboa", "lisboa"),
   ("porto", "porto"),
   ("setubal", "setubal"),
   ("viseu", "viseu"),
   ("guarda", "guarda"),
   ("santarem", "santarem"),
   ("beja", "beja"),
   ("castelo branco", "castelo branco"),
   ("evora", "evora"),
   ("faro", "faro"),
   ("portalegre", "portalegre"),
   ("ilha da madeira", "madeira"),
   ("acores", "acores")]

/-- `district_satisfaction_dict` (lines 483-490): each district-summary entry
(here given as its distrito_normalized key and score), keyed through
`district_mapping` by `.map` — a name with no dictionary entry gets the key
NaN (`none`). `set_index(...).to_dict()` keeps the last value for a repeated
key, which `dict_get` below mirrors. -/
def district_satisfaction_dict (tbl : List (String × ℚ)) : List (Option String × ℚ) :=
  tbl.map (fun e => (district_mapping.lookup e.1, e.2))

/-- A Python dict read `d[k]` (with last-wins duplicate keys), as used by
`style_function` (line 522) on the lowercased feature name: an absent key is
a KeyError, modelled `none`. A feature's (string) key can never equal the
NaN key of an unmatched survey name. -/
def dict_get (d : List (Option String × ℚ)) (k : String) : Option ℚ :=
  (d.reverse.find? (fun e => e.1 == some k)).map (fun e => e.2)

/-- `style_function` (lines 519-544): the fill color of one boundary feature,
identified by its lowercased "Distrito" property; a KeyError on the score
dict yields the distinguished gray no-data fill, never a numeric default. -/
def style_function (d : List (Option String × ℚ)) (featName : String) : String :=
  match dict_get d featName with
  | some score => style_fill_color score
  | none => "#f7f7f7"

/-- The marker loop (lines 569-604): a circle marker with a score popup is
added only for features whose lowercased name is a key of the score dict. -/
def marker_features (d : List (Option String × ℚ)) (featNames : List String) : List String :=
  featNames.filter (fun f => (dict_get d f).isSome)

/-- C8: the geo join is total and drops unmatched names: every score the dict
yields for a feature key comes from a summary entry whose normalized name the
alias dictionary maps to that key (so an entry whose name has no dictionary
entry is never delivered to any feature); and a feature key with no computed
score gets the gray no-data fill and no marker — never a numeric default. -/
theorem geo_join_drops_unmatched (tbl : List (String × ℚ)) (f : String)
    (featNames : List String) :
    (∀ s, dict_get (district_satisfaction_dict tbl) f = some s →
      ∃ e ∈ tbl, district_mapping.lookup e.1 = some f ∧ e.2 = s)
    ∧ (dict_get (district_satisfaction_dict tbl) f = none →
      style_function (district_satisfaction_dict tbl) f = "#f7f7f7"
      ∧ f ∉ marker_features (district_satisfaction_dict tbl) featNames) := by
  constructor
  · intro s hs
    rw [dict_get, Option.map_eq_some'] at hs
    obtain ⟨e0, hfind, hval⟩ := hs
    have hmem : e0 ∈ (district_satisfaction_dict tbl).reverse :=
      List.mem_of_find?_eq_some hfind
    have hpred := List.find?_some hfind
    simp only [beq_iff_eq] at hpred
    rw [List.mem_reverse, district_satisfaction_dict, List.mem_map] at hmem
    obtain ⟨e, he, heq⟩ := hmem
    refine ⟨e, he, ?_, ?_⟩
    · rw [← hpred, ← heq]
    · rw [← hval, ← heq]
  · intro hnone
    refine ⟨?_, ?_⟩
    · rw [style_function, hnone]
    · rw [marker_features, List.mem_filter]
      rintro ⟨-, hf⟩
      rw [hnone] at hf
      exact absurd hf (by decide)

/-- Witness for C8 at a concrete table whose only district name ("nowhere")
has no alias entry: the feature key "lisboa" finds no score, gets the gray
fill and no marker. -/
theorem geo_join_drops_unmatched_witness :
    style_function (district_satisfaction_dict [("nowhere", (0 : ℚ))]) "lisboa" = "#f7f7f7"
    ∧ "lisboa" ∉ marker_features (district_satisfaction_dict [("nowhere", (0 : ℚ))]) ["lisboa"] :=
  (geo_join_drops_unmatched [("nowhere", (0 : ℚ))] "lisboa" ["lisboa"]).2 (by decide)

end Tab3
